import Mathlib

/-!
# x-auth/ldap: the LDAP authentication plugin (`main.go`)

A shallow embedding of `Plugin.Login`, `Plugin.Connect` and `NewPlugin`.

* The directory session (`*ldap3.Conn`) is a value of an arbitrary state type `σ`; the
  library calls `Bind` and `Search` are the fields of `Conn σ` and thread that state.
* The dial functions of the `ldap3` package are the fields of `Net σ`.
* A Go `error` is `Option GoError` (`none` is `nil`).
* Every call made on the session or on the network is appended to a trace, so that
  "which calls were issued" is a statement about the returned value.
* A run-time panic (index out of range, nil connection) is the outcome `Outcome.panic`.
* `log.Println` has no effect on the returned values and is left out.
-/

namespace XAuthLdap

/-! ## Data model -/

/-- A non-nil Go `error` value, identified by its message. -/
structure GoError where
  msg : String
  deriving DecidableEq, Repr

/-- The type `ldap3.EntryAttribute`: an attribute name with its values. -/
structure EntryAttribute where
  Name : String
  Values : List String
  deriving DecidableEq, Repr

/-- The type `ldap3.Entry`: a distinguished name and its attributes. -/
structure Entry where
  DN : String
  Attributes : List EntryAttribute
  deriving DecidableEq, Repr

/-- The type `ldap3.SearchResult`, restricted to the field `Login` reads. -/
structure SearchResult where
  Entries : List Entry
  deriving DecidableEq, Repr

/-- The type `ldap3.SearchRequest`. `Controls` is always `nil` in this program. -/
structure SearchRequest where
  BaseDN : String
  Scope : Nat
  DerefAliases : Nat
  SizeLimit : Int
  TimeLimit : Int
  TypesOnly : Bool
  Filter : String
  Attributes : List String
  deriving DecidableEq, Repr

/-- The constant `ldap3.ScopeBaseObject`. -/
def ScopeBaseObject : Nat := 0
/-- The constant `ldap3.ScopeSingleLevel`. -/
def ScopeSingleLevel : Nat := 1
/-- The constant `ldap3.ScopeWholeSubtree`. -/
def ScopeWholeSubtree : Nat := 2
/-- The constant `ldap3.NeverDerefAliases`. -/
def NeverDerefAliases : Nat := 0

/-- The function `ldap3.NewSearchRequest` (the trailing `Controls` argument is `nil`). -/
def NewSearchRequest (baseDN : String) (scope derefAliases : Nat) (sizeLimit timeLimit : Int)
    (typesOnly : Bool) (filter : String) (attributes : List String) : SearchRequest :=
  { BaseDN := baseDN, Scope := scope, DerefAliases := derefAliases, SizeLimit := sizeLimit,
    TimeLimit := timeLimit, TypesOnly := typesOnly, Filter := filter, Attributes := attributes }

/-- The type `models.Profile`: six scalar fields and the groups. The zero value
`models.Profile{}` is `default`. -/
structure Profile where
  Name : String := ""
  FamilyName : String := ""
  GivenName : String := ""
  NickName : String := ""
  Email : String := ""
  PhoneNumber : String := ""
  Groups : List String := []
  deriving DecidableEq, Repr

instance : Inhabited Profile := ⟨{}⟩

/-- The type `tls.Config`, restricted to the one field this program sets. -/
structure TlsConfig where
  InsecureSkipVerify : Bool
  deriving DecidableEq, Repr

/-- A call made on the directory session. -/
inductive Op where
  | bind (dn password : String)
  | search (req : SearchRequest)
  deriving DecidableEq, Repr

/-- A call made to open or upgrade a connection. -/
inductive NetOp where
  | dialURL (url : String)
  | startTLS (conf : TlsConfig)
  | dialTLS (network addr : String) (conf : TlsConfig)
  | dial (network addr : String)
  deriving DecidableEq, Repr

/-- The methods of `*ldap3.Conn` that `Login` calls, over a session state `σ`. -/
structure Conn (σ : Type) where
  Bind : σ → String → String → Option GoError × σ
  Search : σ → SearchRequest → Except GoError SearchResult × σ

/-- The functions of package `ldap3` that `Connect` calls. A failed dial yields no
connection. -/
structure Net (σ : Type) where
  DialURL : String → Except GoError σ
  StartTLS : σ → TlsConfig → Option GoError × σ
  DialTLS : String → String → TlsConfig → Except GoError σ
  Dial : String → String → Except GoError σ

/-- The package-level names `main.go` uses but does not declare: the constants
`sizeLimit`, `timeLimit`, `typesOnly` and the helpers `getAttr`, `getGroups`. -/
structure Helpers where
  sizeLimit : Int
  timeLimit : Int
  typesOnly : Bool
  getAttr : List EntryAttribute → String → List String
  getGroups : List String → List String

/-- A configuration `map[string]string`, as an association list. -/
abbrev Config := List (String × String)

/-- The Go map read `cfg[key]`: the zero value `""` when the key is absent. -/
def Config.get (cfg : Config) (key : String) : String :=
  (cfg.lookup key).getD ""

/-- The struct `Plugin`. `connection` is `none` for the nil pointer. -/
structure Plugin (σ : Type) where
  raw_cfg : Config := []
  name : String := ""
  family_name : String := ""
  given_name : String := ""
  nickname : String := ""
  email : String := ""
  phone_number : String := ""
  groups : String := ""
  bind_dn : String := ""
  bind_pw : String := ""
  base_dn : String := ""
  filter : String := ""
  connection : Option σ := none

/-- What a call of `Login` yields: it returns a profile and an error, or panics. -/
inductive Outcome where
  | ret (profile : Profile) (err : Option GoError)
  | panic
  deriving DecidableEq, Repr

/-- The result of running `Login`: the outcome, the calls issued on the session in
order, and the session afterwards. -/
structure LoginResult (σ : Type) where
  outcome : Outcome
  trace : List Op
  connection : Option σ

/-! ## `Plugin.Login` -/

/-- The user-lookup request of `Login` (lines 42-50). -/
def lookupRequest {σ : Type} (h : Helpers) (p : Plugin σ) (username : String) : SearchRequest :=
  NewSearchRequest p.base_dn ScopeWholeSubtree NeverDerefAliases h.sizeLimit h.timeLimit
    h.typesOnly ("(&" ++ p.filter ++ "(" ++ p.email ++ "=" ++ username ++ "))") ["dn"]

/-- The attribute-fetch request of `Login` (lines 73-82). -/
def userSearchRequest {σ : Type} (h : Helpers) (p : Plugin σ) (userdn : String) : SearchRequest :=
  NewSearchRequest userdn ScopeBaseObject NeverDerefAliases h.sizeLimit h.timeLimit
    h.typesOnly "(objectClass=*)"
    [p.name, p.family_name, p.given_name, p.nickname, p.email, p.phone_number]

/-- The mapping step of `Login` (lines 95-111). Each `[0]` is an index expression that
panics on an empty slice. -/
def buildProfile {σ : Type} (h : Helpers) (p : Plugin σ) (userAttrs : List EntryAttribute) :
    Outcome :=
  let groups := h.getGroups (h.getAttr userAttrs p.groups)
  match (h.getAttr userAttrs p.name)[0]?, (h.getAttr userAttrs p.family_name)[0]?,
      (h.getAttr userAttrs p.given_name)[0]?, (h.getAttr userAttrs p.nickname)[0]?,
      (h.getAttr userAttrs p.email)[0]?, (h.getAttr userAttrs p.phone_number)[0]? with
  | some name, some familyName, some givenName, some nickName, some email, some phoneNumber =>
    .ret { Name := name, FamilyName := familyName, GivenName := givenName,
           NickName := nickName, Email := email, PhoneNumber := phoneNumber,
           Groups := groups } none
  | _, _, _, _, _, _ => .panic

/-- The method `Plugin.Login`. -/
def Plugin.Login {σ : Type} (h : Helpers) (c : Conn σ) (p : Plugin σ)
    (username password : String) : LoginResult σ :=
  match p.connection with
  | none => { outcome := .panic, trace := [], connection := none }
  | some s0 =>
    -- bind with the bind dn
    match c.Bind s0 p.bind_dn p.bind_pw with
    | (some err, s1) =>
      { outcome := .ret {} (some err), trace := [.bind p.bind_dn p.bind_pw],
        connection := some s1 }
    | (none, s1) =>
      let searchRequest := lookupRequest h p username
      -- run the search
      match c.Search s1 searchRequest with
      | (.error err, s2) =>
        { outcome := .ret {} (some err),
          trace := [.bind p.bind_dn p.bind_pw, .search searchRequest],
          connection := some s2 }
      | (.ok searchResult, s2) =>
        let err : Option GoError := none
        -- get the first entry of the searchResult
        let numEntries := searchResult.Entries.length
        if hn : numEntries ≠ 1 then
          { outcome := .ret {} err,
            trace := [.bind p.bind_dn p.bind_pw, .search searchRequest],
            connection := some s2 }
        else
          -- bind the user to verify the password
          have h0 : 0 < searchResult.Entries.length := by omega
          let userdn := searchResult.Entries[0].DN
          match c.Bind s2 userdn password with
          | (some err, s3) =>
            { outcome := .ret {} (some err),
              trace := [.bind p.bind_dn p.bind_pw, .search searchRequest,
                        .bind userdn password],
              connection := some s3 }
          | (none, s3) =>
            let userSearch := userSearchRequest h p userdn
            -- run the search
            match c.Search s3 userSearch with
            | (.error err, s4) =>
              { outcome := .ret {} (some err),
                trace := [.bind p.bind_dn p.bind_pw, .search searchRequest,
                          .bind userdn password, .search userSearch],
                connection := some s4 }
            | (.ok userSearchResult, s4) =>
              let err : Option GoError := none
              if hm : userSearchResult.Entries.length ≠ 1 then
                { outcome := .ret {} err,
                  trace := [.bind p.bind_dn p.bind_pw, .search searchRequest,
                            .bind userdn password, .search userSearch],
                  connection := some s4 }
              else
                -- parse the attributes for internal profile
                have h1 : 0 < userSearchResult.Entries.length := by omega
                let userAttrs := userSearchResult.Entries[0].Attributes
                { outcome := buildProfile h p userAttrs,
                  trace := [.bind p.bind_dn p.bind_pw, .search searchRequest,
                            .bind userdn password, .search userSearch],
                  connection := some s4 }

/-! ## `Plugin.Connect` and `NewPlugin` -/

/-- The function `strconv.ParseBool` of the Go standard library. -/
def ParseBool (str : String) : Except GoError Bool :=
  if str = "1" ∨ str = "t" ∨ str = "T" ∨ str = "true" ∨ str = "TRUE" ∨ str = "True" then
    .ok true
  else if str = "0" ∨ str = "f" ∨ str = "F" ∨ str = "false" ∨ str = "FALSE" ∨ str = "False" then
    .ok false
  else
    .error ⟨"strconv.ParseBool: parsing " ++ str.quote ++ ": invalid syntax"⟩

/-- The result of running `Connect`: the receiver afterwards, the returned error and
the network calls attempted, in order. -/
structure ConnectResult (σ : Type) where
  plugin : Plugin σ
  err : Option GoError
  trace : List NetOp

/-- The method `Plugin.Connect`. -/
def Plugin.Connect {σ : Type} (net : Net σ) (p : Plugin σ) (cfg : Config) : ConnectResult σ :=
  let (useTLS, enableSSL) :=
    if cfg.get "encryption" = "tls" then (true, false)
    else if cfg.get "encryption" = "ssl" then (false, true)
    else (false, false)
  match ParseBool (cfg.get "skip_verify") with
  | .error err => { plugin := p, err := some err, trace := [] }
  | .ok skipVerify =>
    if useTLS then
      match net.DialURL ("ldap://" ++ cfg.get "host") with
      | .error err =>
        { plugin := { p with connection := none }, err := some err,
          trace := [.dialURL ("ldap://" ++ cfg.get "host")] }
      | .ok conn =>
        match net.StartTLS conn { InsecureSkipVerify := skipVerify } with
        | (some err, conn1) =>
          { plugin := { p with connection := some conn1 }, err := some err,
            trace := [.dialURL ("ldap://" ++ cfg.get "host"),
                      .startTLS { InsecureSkipVerify := skipVerify }] }
        | (none, conn1) =>
          { plugin := { p with connection := some conn1 }, err := none,
            trace := [.dialURL ("ldap://" ++ cfg.get "host"),
                      .startTLS { InsecureSkipVerify := skipVerify }] }
    else if enableSSL then
      let tlsConf : TlsConfig := { InsecureSkipVerify := skipVerify }
      match net.DialTLS "tcp" (cfg.get "host") tlsConf with
      | .error err =>
        { plugin := { p with connection := none }, err := some err,
          trace := [.dialTLS "tcp" (cfg.get "host") tlsConf] }
      | .ok conn =>
        { plugin := { p with connection := some conn }, err := none,
          trace := [.dialTLS "tcp" (cfg.get "host") tlsConf] }
    else
      match net.Dial "tcp" (cfg.get "host") with
      | .error err =>
        { plugin := { p with connection := none }, err := some err,
          trace := [.dial "tcp" (cfg.get "host")] }
      | .ok conn =>
        { plugin := { p with connection := some conn }, err := none,
          trace := [.dial "tcp" (cfg.get "host")] }

/-- The result of running `NewPlugin`: the returned plugin and error, and the network
calls attempted. -/
structure NewPluginResult (σ : Type) where
  plugin : Plugin σ
  err : Option GoError
  trace : List NetOp

/-- The function `NewPlugin`. -/
def NewPlugin {σ : Type} (net : Net σ) (cfg : Config) : NewPluginResult σ :=
  let plug : Plugin σ :=
    { raw_cfg := cfg,
      name := cfg.get "name",
      family_name := cfg.get "family_name",
      given_name := cfg.get "given_name",
      nickname := cfg.get "nickname",
      email := cfg.get "email",
      phone_number := cfg.get "phone_number",
      bind_dn := cfg.get "bind_dn",
      bind_pw := cfg.get "bind_pw",
      base_dn := cfg.get "base_dn",
      groups := cfg.get "groups",
      filter := cfg.get "filter" }
  let r := plug.Connect net plug.raw_cfg
  match r.err with
  | some err => { plugin := {}, err := some err, trace := r.trace }
  | none => { plugin := r.plugin, err := none, trace := r.trace }

/-- Whether a network call performs a TLS handshake. -/
def NetOp.isTLS : NetOp → Bool
  | .startTLS _ => true
  | .dialTLS _ _ _ => true
  | _ => false

/-! ## The helper `getAttr` -/

/-- Modelled from the spec: the helper `getAttr`, which `main.go` calls but does not
define. Section 4.2, step 5: "for each scalar field, take the first value of the
corresponding attribute (a missing attribute yields an empty string, never an error)".
It returns the values of the first attribute of the given name, and the one-element
list holding the empty string when the entry has no attribute of that name. -/
def getAttr : List EntryAttribute → String → List String
  | [], _ => [""]
  | attr :: rest, name => if attr.Name = name then attr.Values else getAttr rest name

/-- The package-level names with `getAttr` as the spec describes it. -/
def Helpers.withSpecGetAttr (h : Helpers) : Helpers :=
  { h with getAttr := XAuthLdap.getAttr }

/-! ## The scenario of section 8 of the specification -/

/-- The scenario configuration, as written: it has no `skip_verify` key. -/
def scenarioCfg : Config :=
  [("host", "dir.example.com"), ("encryption", ""), ("base_dn", "dc=example,dc=com"),
   ("bind_dn", "cn=svc,dc=example,dc=com"), ("bind_pw", "p"),
   ("filter", "(objectClass=person)"), ("email", "mail"), ("name", "cn"),
   ("groups", "memberOf")]

/-- The scenario configuration with a `skip_verify` value that parses, the host still
written without a port. -/
def scenarioCfgNoPort : Config :=
  ("skip_verify", "false") :: scenarioCfg

/-- The scenario configuration with a `skip_verify` value that parses and a host that
names the port, as the plain `Dial` needs it. -/
def scenarioCfgVerify : Config :=
  [("host", "dir.example.com:389"), ("encryption", ""), ("skip_verify", "false"),
   ("base_dn", "dc=example,dc=com"), ("bind_dn", "cn=svc,dc=example,dc=com"),
   ("bind_pw", "p"), ("filter", "(objectClass=person)"), ("email", "mail"),
   ("name", "cn"), ("groups", "memberOf")]

/-- The one entry of the scenario directory. -/
def aliceEntry : Entry :=
  { DN := "cn=Alice,dc=example,dc=com",
    Attributes :=
      [⟨"objectClass", ["person"]⟩, ⟨"cn", ["Alice"]⟩, ⟨"mail", ["alice@example.com"]⟩,
       ⟨"memberOf", ["cn=admins,dc=example,dc=com"]⟩] }

/-- A directory server returns, of an entry, the attributes the request names. -/
def Entry.select (e : Entry) (attributes : List String) : Entry :=
  { e with Attributes := e.Attributes.filter (fun a => attributes.contains a.Name) }

/-- Whether a dial address names a port: it holds a colon. -/
def hasPort (addr : String) : Bool :=
  addr.toList.contains ':'

/-- The error of `ldap3.Dial` and `ldap3.DialTLS` for an address without a port. -/
def missingPort (network addr : String) : GoError :=
  ⟨"LDAP Result Code 200 \"Network Error\": dial " ++ network ++ ": address " ++ addr ++
    ": missing port in address"⟩

/-- A reachable server. `Dial` and `DialTLS` hand the address to the Go dialer, which
refuses an address that names no port; `DialURL` takes the default port of the URL
scheme. A dial that succeeds yields a session on which nobody is bound yet (the session
state is the bound DN), and the StartTLS upgrade succeeds. -/
def reachableNet : Net (Option String) :=
  { DialURL := fun _ => .ok none,
    StartTLS := fun s _ => (none, s),
    DialTLS := fun network addr _ =>
      if hasPort addr then .ok none else .error (missingPort network addr),
    Dial := fun network addr =>
      if hasPort addr then .ok none else .error (missingPort network addr) }

/-- The scenario directory: the service account with password `p`, and `aliceEntry`
with password `correct-pw`. A search by an unbound session is refused; the subtree
search finds Alice by her mail address, the base-object search finds her by her DN. -/
def scenarioConn : Conn (Option String) :=
  { Bind := fun _ dn password =>
      if (dn = "cn=svc,dc=example,dc=com" ∧ password = "p") ∨
          (dn = aliceEntry.DN ∧ password = "correct-pw") then (none, some dn)
      else (some ⟨"LDAP Result Code 49 \"Invalid Credentials\": "⟩, none),
    Search := fun s req =>
      match s with
      | none => (.error ⟨"LDAP Result Code 50 \"Insufficient Access Rights\": "⟩, s)
      | some _ =>
        if req.Scope = ScopeWholeSubtree ∧ req.BaseDN = "dc=example,dc=com" ∧
            req.Filter = "(&(objectClass=person)(mail=alice@example.com))" then
          (.ok ⟨[aliceEntry.select req.Attributes]⟩, s)
        else if req.Scope = ScopeBaseObject ∧ req.BaseDN = aliceEntry.DN ∧
            req.Filter = "(objectClass=*)" then
          (.ok ⟨[aliceEntry.select req.Attributes]⟩, s)
        else (.ok ⟨[]⟩, s) }

/-- The scenario directory under concurrent mutation: Alice is found by the first
search of a session and has been deleted by the time of the second. The session state
counts the searches made. -/
def vanishingConn : Conn Nat :=
  { Bind := fun s _ _ => (none, s),
    Search := fun s req =>
      if s = 0 then (.ok ⟨[aliceEntry.select req.Attributes]⟩, s + 1)
      else (.ok ⟨[]⟩, s + 1) }

/-- A directory that returns Alice with the attribute `cn` present but holding no value
(and, as always, without the attributes the request does not name). -/
def valuelessConn : Conn Unit :=
  { Bind := fun s _ _ => (none, s),
    Search := fun s req =>
      (.ok ⟨[Entry.select
              { DN := aliceEntry.DN,
                Attributes := [⟨"cn", []⟩, ⟨"mail", ["alice@example.com"]⟩] }
              req.Attributes]⟩, s) }

/-- A directory in which two entries carry the mail address searched for. -/
def ambiguousConn : Conn Unit :=
  { Bind := fun s _ _ => (none, s),
    Search := fun s req =>
      (.ok ⟨[aliceEntry.select req.Attributes,
             { DN := "cn=Alice2,dc=example,dc=com", Attributes := [] }]⟩, s) }

/-- The plugin `NewPlugin` builds from `scenarioCfgVerify`, holding session `s`. -/
def scenarioPlugin {σ : Type} (s : σ) : Plugin σ :=
  { raw_cfg := scenarioCfgVerify, name := "cn", email := "mail", groups := "memberOf",
    bind_dn := "cn=svc,dc=example,dc=com", bind_pw := "p", base_dn := "dc=example,dc=com",
    filter := "(objectClass=person)", connection := some s }

/-- The scenario plugin with the family-name attribute configured too, as `sn`. -/
def scenarioPluginSn {σ : Type} (s : σ) : Plugin σ :=
  { scenarioPlugin s with family_name := "sn" }

/-- Package-level constants and helpers for running the scenario: no size or time limit,
values requested, `getAttr` as the spec describes it, and the given `getGroups`. -/
def scenarioHelpers (getGroups : List String → List String) : Helpers :=
  { sizeLimit := 0, timeLimit := 0, typesOnly := false, getAttr := getAttr,
    getGroups := getGroups }

/-! ## Properties of `Login` -/

section LoginTheorems

variable {σ : Type}

/-- C4. When the first operation, the bind with `bind_dn` and `bind_pw`, fails, `Login`
returns that failure with the empty profile and the only call issued on the session is
that bind: no search and no user bind. -/
theorem login_service_bind_failure (h : Helpers) (c : Conn σ) (p : Plugin σ)
    (username password : String) (s0 s1 : σ) (e : GoError)
    (hconn : p.connection = some s0)
    (hbind : c.Bind s0 p.bind_dn p.bind_pw = (some e, s1)) :
    (p.Login h c username password).outcome = .ret {} (some e) ∧
    (p.Login h c username password).trace = [.bind p.bind_dn p.bind_pw] ∧
    (∀ req, Op.search req ∉ (p.Login h c username password).trace) := by
  simp [Plugin.Login, hconn, hbind]

/-- C2. When the service bind succeeds, the user lookup returns exactly one entry and the
bind with that entry's DN and the supplied password fails, `Login` returns the error of
that user bind with the empty profile, and the calls issued are exactly the service bind,
the lookup search and the user bind: no attribute-fetch search is issued. -/
theorem login_user_bind_failure (h : Helpers) (c : Conn σ) (p : Plugin σ)
    (username password : String) (s0 s1 s2 s3 : σ) (entry : Entry) (e : GoError)
    (hconn : p.connection = some s0)
    (hbind : c.Bind s0 p.bind_dn p.bind_pw = (none, s1))
    (hsearch : c.Search s1 (lookupRequest h p username) = (.ok ⟨[entry]⟩, s2))
    (huser : c.Bind s2 entry.DN password = (some e, s3)) :
    (p.Login h c username password).outcome = .ret {} (some e) ∧
    (p.Login h c username password).trace =
      [.bind p.bind_dn p.bind_pw, .search (lookupRequest h p username),
       .bind entry.DN password] ∧
    Op.search (userSearchRequest h p entry.DN) ∉ (p.Login h c username password).trace := by
  have hrun : p.Login h c username password =
      { outcome := .ret {} (some e),
        trace := [.bind p.bind_dn p.bind_pw, .search (lookupRequest h p username),
                  .bind entry.DN password],
        connection := some s3 } := by
    simp [Plugin.Login, hconn, hbind, hsearch, huser]
  rw [hrun]
  simp [lookupRequest, userSearchRequest, NewSearchRequest, ScopeWholeSubtree,
    ScopeBaseObject]

/-! ### The runs of `Login`, stage by stage -/

/-- The run in which the lookup search returns a number of entries other than one. -/
theorem login_run_lookup_count (h : Helpers) (c : Conn σ) (p : Plugin σ)
    (username password : String) (s0 s1 s2 : σ) (res : SearchResult)
    (hconn : p.connection = some s0)
    (hbind : c.Bind s0 p.bind_dn p.bind_pw = (none, s1))
    (hsearch : c.Search s1 (lookupRequest h p username) = (.ok res, s2))
    (hcount : res.Entries.length ≠ 1) :
    p.Login h c username password =
      { outcome := .ret {} none,
        trace := [.bind p.bind_dn p.bind_pw, .search (lookupRequest h p username)],
        connection := some s2 } := by
  simp [Plugin.Login, hconn, hbind, hsearch, hcount]

/-- The run in which the attribute-fetch search returns a number of entries other than
one. -/
theorem login_run_fetch_count (h : Helpers) (c : Conn σ) (p : Plugin σ)
    (username password : String) (s0 s1 s2 s3 s4 : σ) (first : Entry) (res : SearchResult)
    (hconn : p.connection = some s0)
    (hbind : c.Bind s0 p.bind_dn p.bind_pw = (none, s1))
    (hsearch : c.Search s1 (lookupRequest h p username) = (.ok ⟨[first]⟩, s2))
    (huser : c.Bind s2 first.DN password = (none, s3))
    (hfetch : c.Search s3 (userSearchRequest h p first.DN) = (.ok res, s4))
    (hcount : res.Entries.length ≠ 1) :
    p.Login h c username password =
      { outcome := .ret {} none,
        trace := [.bind p.bind_dn p.bind_pw, .search (lookupRequest h p username),
                  .bind first.DN password, .search (userSearchRequest h p first.DN)],
        connection := some s4 } := by
  simp [Plugin.Login, hconn, hbind, hsearch, huser, hfetch, hcount]

/-- The run that reaches the mapping step. -/
theorem login_run_mapping (h : Helpers) (c : Conn σ) (p : Plugin σ)
    (username password : String) (s0 s1 s2 s3 s4 : σ) (first entry : Entry)
    (hconn : p.connection = some s0)
    (hbind : c.Bind s0 p.bind_dn p.bind_pw = (none, s1))
    (hsearch : c.Search s1 (lookupRequest h p username) = (.ok ⟨[first]⟩, s2))
    (huser : c.Bind s2 first.DN password = (none, s3))
    (hfetch : c.Search s3 (userSearchRequest h p first.DN) = (.ok ⟨[entry]⟩, s4)) :
    p.Login h c username password =
      { outcome := buildProfile h p entry.Attributes,
        trace := [.bind p.bind_dn p.bind_pw, .search (lookupRequest h p username),
                  .bind first.DN password, .search (userSearchRequest h p first.DN)],
        connection := some s4 } := by
  simp [Plugin.Login, hconn, hbind, hsearch, huser, hfetch]

/-- After a successful service bind the trace starts with that bind followed by the
lookup search. -/
theorem login_trace_lookup (h : Helpers) (c : Conn σ) (p : Plugin σ)
    (username password : String) (s0 s1 : σ)
    (hconn : p.connection = some s0)
    (hbind : c.Bind s0 p.bind_dn p.bind_pw = (none, s1)) :
    ∃ rest, (p.Login h c username password).trace =
      .bind p.bind_dn p.bind_pw :: .search (lookupRequest h p username) :: rest := by
  simp only [Plugin.Login, hconn, hbind]
  split
  · exact ⟨[], rfl⟩
  · split
    · exact ⟨[], rfl⟩
    · split
      · exact ⟨_, rfl⟩
      · split
        · exact ⟨_, rfl⟩
        · split
          · exact ⟨_, rfl⟩
          · exact ⟨_, rfl⟩

/-- Once the user bind has succeeded the fourth call is the attribute-fetch search. -/
theorem login_trace_fetch (h : Helpers) (c : Conn σ) (p : Plugin σ)
    (username password : String) (s0 s1 s2 s3 : σ) (first : Entry)
    (hconn : p.connection = some s0)
    (hbind : c.Bind s0 p.bind_dn p.bind_pw = (none, s1))
    (hsearch : c.Search s1 (lookupRequest h p username) = (.ok ⟨[first]⟩, s2))
    (huser : c.Bind s2 first.DN password = (none, s3)) :
    (p.Login h c username password).trace =
      [.bind p.bind_dn p.bind_pw, .search (lookupRequest h p username),
       .bind first.DN password, .search (userSearchRequest h p first.DN)] := by
  rcases hfetch : c.Search s3 (userSearchRequest h p first.DN) with ⟨res | res, s4⟩
  · simp [Plugin.Login, hconn, hbind, hsearch, huser, hfetch]
  · by_cases hcount : res.Entries.length = 1
    · simp [Plugin.Login, hconn, hbind, hsearch, huser, hfetch, hcount]
    · simp [Plugin.Login, hconn, hbind, hsearch, huser, hfetch, hcount]

/-- Witness of C4: the scenario directory refuses the service account when the plugin
is configured with a wrong `bind_pw`. -/
theorem login_service_bind_failure_witness :
    ({ scenarioPlugin (none : Option String) with bind_pw := "q" }.Login
        (scenarioHelpers id) scenarioConn "alice@example.com" "correct-pw").outcome =
      .ret {} (some ⟨"LDAP Result Code 49 \"Invalid Credentials\": "⟩) ∧
    ({ scenarioPlugin (none : Option String) with bind_pw := "q" }.Login
        (scenarioHelpers id) scenarioConn "alice@example.com" "correct-pw").trace =
      [.bind "cn=svc,dc=example,dc=com" "q"] ∧
    (∀ req, Op.search req ∉
      ({ scenarioPlugin (none : Option String) with bind_pw := "q" }.Login
        (scenarioHelpers id) scenarioConn "alice@example.com" "correct-pw").trace) :=
  login_service_bind_failure (scenarioHelpers id) scenarioConn
    { scenarioPlugin (none : Option String) with bind_pw := "q" }
    "alice@example.com" "correct-pw" none none _ rfl (by decide)

/-- Witness of C2: in the scenario directory, Alice with a wrong password. -/
theorem login_user_bind_failure_witness :
    ((scenarioPlugin (none : Option String)).Login (scenarioHelpers id) scenarioConn
        "alice@example.com" "wrong-pw").outcome =
      .ret {} (some ⟨"LDAP Result Code 49 \"Invalid Credentials\": "⟩) ∧
    ((scenarioPlugin (none : Option String)).Login (scenarioHelpers id) scenarioConn
        "alice@example.com" "wrong-pw").trace =
      [.bind "cn=svc,dc=example,dc=com" "p",
       .search (lookupRequest (scenarioHelpers id) (scenarioPlugin (none : Option String))
         "alice@example.com"),
       .bind "cn=Alice,dc=example,dc=com" "wrong-pw"] ∧
    Op.search (userSearchRequest (scenarioHelpers id) (scenarioPlugin (none : Option String))
        "cn=Alice,dc=example,dc=com") ∉
      ((scenarioPlugin (none : Option String)).Login (scenarioHelpers id) scenarioConn
        "alice@example.com" "wrong-pw").trace :=
  login_user_bind_failure (scenarioHelpers id) scenarioConn (scenarioPlugin none)
    "alice@example.com" "wrong-pw" none (some "cn=svc,dc=example,dc=com")
    (some "cn=svc,dc=example,dc=com") none (aliceEntry.select ["dn"]) _
    rfl (by decide) rfl (by decide)

/-- C1 (the code departs from the claim). In the scenario directory the lookup for
`bob@example.com` succeeds with zero entries, and in a directory with two matching
entries it succeeds with two: in both runs `Login` returns the empty profile with a
nil error, after the service bind and the lookup search. -/
theorem login_lookup_count_returns_nil_error :
    ((scenarioPlugin (none : Option String)).Login (scenarioHelpers id) scenarioConn
        "bob@example.com" "anything").outcome = .ret {} none ∧
    ((scenarioPlugin (none : Option String)).Login (scenarioHelpers id) scenarioConn
        "bob@example.com" "anything").trace =
      [.bind "cn=svc,dc=example,dc=com" "p",
       .search (lookupRequest (scenarioHelpers id) (scenarioPlugin (none : Option String))
         "bob@example.com")] ∧
    ((scenarioPlugin ()).Login (scenarioHelpers id) ambiguousConn
        "alice@example.com" "correct-pw").outcome = .ret {} none := by
  refine ⟨?_, ?_, ?_⟩
  · rw [login_run_lookup_count (scenarioHelpers id) scenarioConn (scenarioPlugin none)
      "bob@example.com" "anything" none (some "cn=svc,dc=example,dc=com")
      (some "cn=svc,dc=example,dc=com") ⟨[]⟩ rfl (by decide) rfl (by decide)]
  · rw [login_run_lookup_count (scenarioHelpers id) scenarioConn (scenarioPlugin none)
      "bob@example.com" "anything" none (some "cn=svc,dc=example,dc=com")
      (some "cn=svc,dc=example,dc=com") ⟨[]⟩ rfl (by decide) rfl (by decide)]
    rfl
  · rw [login_run_lookup_count (scenarioHelpers id) ambiguousConn (scenarioPlugin ())
      "alice@example.com" "correct-pw" () () () _ rfl rfl rfl (by decide)]

/-- C3 (the code departs from the claim). When Alice is deleted between the lookup and
the attribute fetch, the base-scope search succeeds with zero entries and `Login`
returns the empty profile with a nil error, although the attribute fetch did not
return exactly one entry. -/
theorem login_fetch_count_returns_nil_error :
    ((scenarioPlugin 0).Login (scenarioHelpers id) vanishingConn
        "alice@example.com" "correct-pw").outcome = .ret {} none ∧
    ((scenarioPlugin 0).Login (scenarioHelpers id) vanishingConn
        "alice@example.com" "correct-pw").trace =
      [.bind "cn=svc,dc=example,dc=com" "p",
       .search (lookupRequest (scenarioHelpers id) (scenarioPlugin 0) "alice@example.com"),
       .bind "cn=Alice,dc=example,dc=com" "correct-pw",
       .search (userSearchRequest (scenarioHelpers id) (scenarioPlugin 0)
         "cn=Alice,dc=example,dc=com")] := by
  have hrun := login_run_fetch_count (scenarioHelpers id) vanishingConn (scenarioPlugin 0)
    "alice@example.com" "correct-pw" 0 0 1 1 2 (aliceEntry.select ["dn"]) ⟨[]⟩
    rfl rfl rfl rfl rfl (by decide)
  rw [hrun]
  exact ⟨rfl, rfl⟩

end LoginTheorems

/-! ## Properties of `Connect` and `NewPlugin` -/

section ConnectTheorems

variable {σ : Type}

/-- `Connect` changes no field of its receiver other than `connection`. -/
theorem connect_fields (net : Net σ) (p : Plugin σ) (cfg : Config) :
    ∃ conn, (p.Connect net cfg).plugin = { p with connection := conn } := by
  simp only [Plugin.Connect]
  split
  · exact ⟨p.connection, rfl⟩
  · repeat' split
    all_goals exact ⟨_, rfl⟩

/-- A successful `Connect` leaves a connection in the receiver. -/
theorem connect_connection (net : Net σ) (p : Plugin σ) (cfg : Config)
    (hok : (p.Connect net cfg).err = none) :
    ∃ s, (p.Connect net cfg).plugin.connection = some s := by
  simp only [Plugin.Connect] at hok ⊢
  split
  · simp_all
  · repeat' split
    all_goals simp_all

/-- The plugin a successful `NewPlugin` returns carries the values of the
configuration and a connection. -/
theorem newPlugin_fields (net : Net σ) (cfg : Config) (hok : (NewPlugin net cfg).err = none) :
    ∃ s, (NewPlugin net cfg).plugin =
      { raw_cfg := cfg, name := cfg.get "name", family_name := cfg.get "family_name",
        given_name := cfg.get "given_name", nickname := cfg.get "nickname",
        email := cfg.get "email", phone_number := cfg.get "phone_number",
        groups := cfg.get "groups", bind_dn := cfg.get "bind_dn",
        bind_pw := cfg.get "bind_pw", base_dn := cfg.get "base_dn",
        filter := cfg.get "filter", connection := some s } := by
  simp only [NewPlugin] at hok ⊢
  split at hok
  · simp at hok
  · rename_i hnone
    obtain ⟨s, hs⟩ := connect_connection net _ cfg hnone
    obtain ⟨conn, hconn⟩ := connect_fields net
      ({ raw_cfg := cfg, name := cfg.get "name", family_name := cfg.get "family_name",
         given_name := cfg.get "given_name", nickname := cfg.get "nickname",
         email := cfg.get "email", phone_number := cfg.get "phone_number",
         groups := cfg.get "groups", bind_dn := cfg.get "bind_dn",
         bind_pw := cfg.get "bind_pw", base_dn := cfg.get "base_dn",
         filter := cfg.get "filter" } : Plugin σ) cfg
    refine ⟨s, ?_⟩
    simp only [hnone]
    rw [hconn] at hs ⊢
    simp only at hs
    simp [hs]

/-- C9. When the `skip_verify` value does not parse as a boolean, `Connect` returns the
parse error without attempting any dial or TLS handshake, whatever the encryption
value, and `NewPlugin` returns that same error, also with no network call. -/
theorem connect_skip_verify_malformed (net : Net σ) (p : Plugin σ) (cfg : Config)
    (hparse : ∀ b, ParseBool (cfg.get "skip_verify") ≠ .ok b) :
    ∃ e, ParseBool (cfg.get "skip_verify") = .error e ∧
      (p.Connect net cfg).err = some e ∧ (p.Connect net cfg).trace = [] ∧
      (NewPlugin net cfg).err = some e ∧ (NewPlugin net cfg).trace = [] := by
  rcases hp : ParseBool (cfg.get "skip_verify") with e | b
  · refine ⟨e, rfl, ?_, ?_, ?_, ?_⟩ <;> simp [NewPlugin, Plugin.Connect, hp]
  · exact absurd hp (hparse b)

/-- Witness of C9: `skip_verify` is `yes`, with `encryption` set to `tls`. -/
theorem connect_skip_verify_malformed_witness :
    ∃ e, ParseBool (Config.get [("encryption", "tls"), ("skip_verify", "yes")] "skip_verify")
        = .error e ∧
      (({} : Plugin (Option String)).Connect reachableNet
        [("encryption", "tls"), ("skip_verify", "yes")]).err = some e ∧
      (({} : Plugin (Option String)).Connect reachableNet
        [("encryption", "tls"), ("skip_verify", "yes")]).trace = [] ∧
      (NewPlugin reachableNet [("encryption", "tls"), ("skip_verify", "yes")]).err = some e ∧
      (NewPlugin reachableNet [("encryption", "tls"), ("skip_verify", "yes")]).trace = [] :=
  connect_skip_verify_malformed reachableNet {} [("encryption", "tls"), ("skip_verify", "yes")]
    (by intro b hb; simp [ParseBool, Config.get, List.lookup] at hb)

/-- C8. When `skip_verify` parses to `b`, the network calls `Connect` attempts are fixed
by the `encryption` value: for `tls` a plain `DialURL` and, when that dial succeeds, a
`StartTLS` upgrade after it; for `ssl` one `DialTLS` and nothing before it; for any
other value one plain `Dial` and no call that performs a TLS handshake. The TLS
configuration passed in the `tls` and `ssl` cases has `InsecureSkipVerify` equal to `b`. -/
theorem connect_actions (net : Net σ) (p : Plugin σ) (cfg : Config) (b : Bool)
    (hparse : ParseBool (cfg.get "skip_verify") = .ok b) :
    (cfg.get "encryption" = "tls" →
      (∀ e, net.DialURL ("ldap://" ++ cfg.get "host") = .error e →
        (p.Connect net cfg).trace = [.dialURL ("ldap://" ++ cfg.get "host")]) ∧
      (∀ conn, net.DialURL ("ldap://" ++ cfg.get "host") = .ok conn →
        (p.Connect net cfg).trace =
          [.dialURL ("ldap://" ++ cfg.get "host"), .startTLS { InsecureSkipVerify := b }])) ∧
    (cfg.get "encryption" = "ssl" →
      (p.Connect net cfg).trace =
        [.dialTLS "tcp" (cfg.get "host") { InsecureSkipVerify := b }]) ∧
    (cfg.get "encryption" ≠ "tls" → cfg.get "encryption" ≠ "ssl" →
      (p.Connect net cfg).trace = [.dial "tcp" (cfg.get "host")] ∧
      ∀ op ∈ (p.Connect net cfg).trace, op.isTLS = false) := by
  refine ⟨?_, ?_, ?_⟩
  · intro henc
    refine ⟨?_, ?_⟩
    · intro e hdial
      simp [Plugin.Connect, hparse, henc, hdial]
    · intro conn hdial
      rcases hstart : net.StartTLS conn { InsecureSkipVerify := b } with ⟨e | _, conn1⟩ <;>
        simp [Plugin.Connect, hparse, henc, hdial, hstart]
  · intro henc
    rcases hdial : net.DialTLS "tcp" (cfg.get "host") { InsecureSkipVerify := b } with e | conn <;>
      simp [Plugin.Connect, hparse, henc, hdial]
  · intro htls hssl
    rcases hdial : net.Dial "tcp" (cfg.get "host") with e | conn <;>
      simp [Plugin.Connect, hparse, htls, hssl, hdial, NetOp.isTLS]

/-- Witness of C8: `encryption` is `tls` and `skip_verify` is `true`. -/
theorem connect_actions_witness :
    ParseBool (Config.get [("host", "dir.example.com"), ("encryption", "tls"),
      ("skip_verify", "true")] "skip_verify") = .ok true ∧
    (({} : Plugin (Option String)).Connect reachableNet
      [("host", "dir.example.com"), ("encryption", "tls"), ("skip_verify", "true")]).trace =
      [.dialURL "ldap://dir.example.com", .startTLS { InsecureSkipVerify := true }] :=
  ⟨rfl, ((connect_actions reachableNet ({} : Plugin (Option String))
    [("host", "dir.example.com"), ("encryption", "tls"), ("skip_verify", "true")] true
    rfl).1 rfl).2 none rfl⟩

/-- C10 (as stated, it fails). With the scenario configuration as written, which has no
`skip_verify` key, and a reachable server, `NewPlugin` returns the parse error of the
empty string and no connection is attempted: construction does not succeed. With a
`skip_verify` value added and the host left as written, `dir.example.com` without a
port, the one plain `Dial` is refused and construction fails again. -/
theorem scenario_construction_fails :
    (NewPlugin reachableNet scenarioCfg).err =
      some ⟨"strconv.ParseBool: parsing \"\": invalid syntax"⟩ ∧
    (NewPlugin reachableNet scenarioCfg).trace = [] ∧
    (NewPlugin reachableNet scenarioCfg).plugin.connection = none ∧
    (NewPlugin reachableNet scenarioCfgNoPort).err =
      some (missingPort "tcp" "dir.example.com") ∧
    (NewPlugin reachableNet scenarioCfgNoPort).trace = [.dial "tcp" "dir.example.com"] ∧
    (NewPlugin reachableNet scenarioCfgNoPort).plugin.connection = none := by
  decide

/-- C6. For every configuration from which `NewPlugin` succeeds and every username,
once the service bind has succeeded the second call `Login` issues is a search whose
base is the configured `base_dn`, with whole-subtree scope, never dereferencing aliases,
asking for the attribute list `["dn"]`, and whose filter is the string
`"(&" ++ filter ++ "(" ++ email ++ "=" ++ username ++ "))"` over the configured values. -/
theorem login_lookup_request (h : Helpers) (net : Net σ) (c : Conn σ) (cfg : Config)
    (username password : String) (s0 s1 : σ)
    (hnew : (NewPlugin net cfg).err = none)
    (hconn : (NewPlugin net cfg).plugin.connection = some s0)
    (hbind : c.Bind s0 (cfg.get "bind_dn") (cfg.get "bind_pw") = (none, s1)) :
    ∃ rest, ((NewPlugin net cfg).plugin.Login h c username password).trace =
      .bind (cfg.get "bind_dn") (cfg.get "bind_pw") ::
      .search
        { BaseDN := cfg.get "base_dn",
          Scope := ScopeWholeSubtree,
          DerefAliases := NeverDerefAliases,
          SizeLimit := h.sizeLimit,
          TimeLimit := h.timeLimit,
          TypesOnly := h.typesOnly,
          Filter := "(&" ++ cfg.get "filter" ++ "(" ++ cfg.get "email" ++ "=" ++ username ++ "))",
          Attributes := ["dn"] } :: rest := by
  obtain ⟨s, hs⟩ := newPlugin_fields net cfg hnew
  rw [hs] at hconn ⊢
  exact login_trace_lookup h c _ username password s0 s1 hconn hbind

/-- Witness of C6: the scenario configuration with `skip_verify` set, and Alice. -/
theorem login_lookup_request_witness :
    ∃ rest, ((NewPlugin reachableNet scenarioCfgVerify).plugin.Login (scenarioHelpers id)
        scenarioConn "alice@example.com" "correct-pw").trace =
      .bind "cn=svc,dc=example,dc=com" "p" ::
      .search
        { BaseDN := "dc=example,dc=com",
          Scope := ScopeWholeSubtree,
          DerefAliases := NeverDerefAliases,
          SizeLimit := 0,
          TimeLimit := 0,
          TypesOnly := false,
          Filter := "(&" ++ "(objectClass=person)" ++ "(" ++ "mail" ++ "=" ++
            "alice@example.com" ++ "))",
          Attributes := ["dn"] } :: rest :=
  login_lookup_request (scenarioHelpers id) reachableNet scenarioConn scenarioCfgVerify
    "alice@example.com" "correct-pw" none (some "cn=svc,dc=example,dc=com")
    (by decide) (by decide) (by decide)

end ConnectTheorems

/-! ## The mapping step -/

section MappingTheorems

variable {σ : Type}

/-- An attribute the entry lacks is read as the one empty string. -/
theorem getAttr_of_lacking (attrs : List EntryAttribute) (a : String)
    (hlack : ∀ x ∈ attrs, x.Name ≠ a) : getAttr attrs a = [""] := by
  induction attrs with
  | nil => rfl
  | cons x rest ih =>
    have hx : x.Name ≠ a := hlack x (List.mem_cons_self _ _)
    simp only [getAttr, hx, if_false]
    exact ih (fun y hy => hlack y (List.mem_cons_of_mem _ hy))

/-- The values read are those of the first attribute of that name. -/
theorem getAttr_of_first (pre post : List EntryAttribute) (a : String) (vals : List String)
    (hpre : ∀ x ∈ pre, x.Name ≠ a) : getAttr (pre ++ ⟨a, vals⟩ :: post) a = vals := by
  induction pre with
  | nil => simp [getAttr]
  | cons x rest ih =>
    have hx : x.Name ≠ a := hpre x (List.mem_cons_self _ _)
    simp only [List.cons_append, getAttr, hx, if_false]
    exact ih (fun y hy => hpre y (List.mem_cons_of_mem _ hy))

/-- When every attribute of that name carries a value, the read is not empty. -/
theorem getAttr_ne_nil (attrs : List EntryAttribute) (a : String)
    (hval : ∀ x ∈ attrs, x.Name = a → x.Values ≠ []) : getAttr attrs a ≠ [] := by
  induction attrs with
  | nil => simp [getAttr]
  | cons x rest ih =>
    by_cases hx : x.Name = a
    · simp only [getAttr, hx, if_true]
      exact hval x (List.mem_cons_self _ _) hx
    · simp only [getAttr, hx, if_false]
      exact ih (fun y hy => hval y (List.mem_cons_of_mem _ hy))

/-- A profile returned by the mapping step holds the first element of each read. -/
theorem buildProfile_ret (h : Helpers) (p : Plugin σ) (attrs : List EntryAttribute)
    (prof : Profile) (err : Option GoError) (hret : buildProfile h p attrs = .ret prof err) :
    err = none ∧
    (h.getAttr attrs p.name)[0]? = some prof.Name ∧
    (h.getAttr attrs p.family_name)[0]? = some prof.FamilyName ∧
    (h.getAttr attrs p.given_name)[0]? = some prof.GivenName ∧
    (h.getAttr attrs p.nickname)[0]? = some prof.NickName ∧
    (h.getAttr attrs p.email)[0]? = some prof.Email ∧
    (h.getAttr attrs p.phone_number)[0]? = some prof.PhoneNumber := by
  simp only [buildProfile] at hret
  split at hret
  · rename_i h1 h2 h3 h4 h5 h6
    simp only [Outcome.ret.injEq] at hret
    obtain ⟨hprof, herr⟩ := hret
    subst hprof
    exact ⟨herr.symm, h1, h2, h3, h4, h5, h6⟩
  · cases hret

/-- The mapping step returns when none of the six reads is empty. -/
theorem buildProfile_ok (h : Helpers) (p : Plugin σ) (attrs : List EntryAttribute)
    (h1 : h.getAttr attrs p.name ≠ []) (h2 : h.getAttr attrs p.family_name ≠ [])
    (h3 : h.getAttr attrs p.given_name ≠ []) (h4 : h.getAttr attrs p.nickname ≠ [])
    (h5 : h.getAttr attrs p.email ≠ []) (h6 : h.getAttr attrs p.phone_number ≠ []) :
    ∃ prof, buildProfile h p attrs = .ret prof none := by
  obtain ⟨v1, t1, e1⟩ := List.exists_cons_of_ne_nil h1
  obtain ⟨v2, t2, e2⟩ := List.exists_cons_of_ne_nil h2
  obtain ⟨v3, t3, e3⟩ := List.exists_cons_of_ne_nil h3
  obtain ⟨v4, t4, e4⟩ := List.exists_cons_of_ne_nil h4
  obtain ⟨v5, t5, e5⟩ := List.exists_cons_of_ne_nil h5
  obtain ⟨v6, t6, e6⟩ := List.exists_cons_of_ne_nil h6
  simp [buildProfile, e1, e2, e3, e4, e5, e6]

/-- What the first element of a read says about the entry. -/
theorem getAttr_first_value (attrs : List EntryAttribute) (a v : String)
    (hv : (getAttr attrs a)[0]? = some v) :
    ((∀ x ∈ attrs, x.Name ≠ a) → v = "") ∧
    (∀ pre post v0 vs, attrs = pre ++ ⟨a, v0 :: vs⟩ :: post →
      (∀ x ∈ pre, x.Name ≠ a) → v = v0) := by
  constructor
  · intro hlack
    rw [getAttr_of_lacking attrs a hlack] at hv
    simpa using hv.symm
  · intro pre post v0 vs hsplit hpre
    rw [hsplit, getAttr_of_first pre post a (v0 :: vs) hpre] at hv
    simpa using hv.symm

/-- C5 (as stated, it fails), with `getAttr` as the specification describes it. First,
with the family-name attribute configured as `sn`, a fetched entry that lacks `sn` and
whose `cn` attribute is present without a value: the index expression on the `cn` read fails and `Login` panics, so it
does not succeed. Second, a `Login` that returns a nil error without any fetched entry:
for `bob@example.com` the lookup finds nothing, the calls issued are the service bind
and the lookup search only, and the result is the empty profile with a nil error. -/
theorem login_profile_fields_fail :
    (scenarioPluginSn ()).family_name = "sn" ∧
    (∀ x ∈ [(⟨"cn", []⟩ : EntryAttribute), ⟨"mail", ["alice@example.com"]⟩],
      x.Name ≠ "sn") ∧
    valuelessConn.Search ()
        (userSearchRequest (scenarioHelpers id).withSpecGetAttr (scenarioPluginSn ())
          "cn=Alice,dc=example,dc=com") =
      (.ok ⟨[{ DN := "cn=Alice,dc=example,dc=com",
               Attributes := [⟨"cn", []⟩, ⟨"mail", ["alice@example.com"]⟩] }]⟩, ()) ∧
    ((scenarioPluginSn ()).Login (scenarioHelpers id).withSpecGetAttr valuelessConn
        "alice@example.com" "correct-pw").outcome = .panic ∧
    ((scenarioPluginSn ()).Login (scenarioHelpers id).withSpecGetAttr valuelessConn
        "alice@example.com" "correct-pw").trace =
      [.bind "cn=svc,dc=example,dc=com" "p",
       .search (lookupRequest (scenarioHelpers id) (scenarioPluginSn ()) "alice@example.com"),
       .bind "cn=Alice,dc=example,dc=com" "correct-pw",
       .search (userSearchRequest (scenarioHelpers id) (scenarioPluginSn ())
         "cn=Alice,dc=example,dc=com")] ∧
    ((scenarioPlugin (none : Option String)).Login (scenarioHelpers id).withSpecGetAttr
        scenarioConn "bob@example.com" "anything").outcome = .ret {} none ∧
    ((scenarioPlugin (none : Option String)).Login (scenarioHelpers id).withSpecGetAttr
        scenarioConn "bob@example.com" "anything").trace =
      [.bind "cn=svc,dc=example,dc=com" "p",
       .search (lookupRequest (scenarioHelpers id) (scenarioPlugin (none : Option String))
         "bob@example.com")] := by
  refine ⟨rfl, by decide, rfl, by decide, by decide, by decide, by decide⟩

/-- C5 (as amended). Take `getAttr` as the specification describes it, and a run of
`Login` that reaches the mapping step: the service bind, the lookup with exactly one
entry, the user bind and the attribute fetch with exactly one entry `entry` all
succeed. Whenever such a run returns, the error is nil and each of the six scalar fields
is the first value of the first attribute of the configured name, and is the empty
string when the entry has no attribute of that name. The run does return, with a nil
error, for every entry in which each attribute of a configured name that is present
carries at least one value; an attribute that is lacking never makes the indexing
fail. -/
theorem login_profile_fields (h : Helpers) (c : Conn σ) (p : Plugin σ)
    (username password : String) (s0 s1 s2 s3 s4 : σ) (first entry : Entry)
    (hconn : p.connection = some s0)
    (hbind : c.Bind s0 p.bind_dn p.bind_pw = (none, s1))
    (hsearch : c.Search s1 (lookupRequest h.withSpecGetAttr p username) = (.ok ⟨[first]⟩, s2))
    (huser : c.Bind s2 first.DN password = (none, s3))
    (hfetch : c.Search s3 (userSearchRequest h.withSpecGetAttr p first.DN) =
      (.ok ⟨[entry]⟩, s4)) :
    (∀ prof err, (p.Login h.withSpecGetAttr c username password).outcome = .ret prof err →
      err = none ∧
      ∀ av ∈ [(p.name, prof.Name), (p.family_name, prof.FamilyName),
              (p.given_name, prof.GivenName), (p.nickname, prof.NickName),
              (p.email, prof.Email), (p.phone_number, prof.PhoneNumber)],
        ((∀ x ∈ entry.Attributes, x.Name ≠ av.1) → av.2 = "") ∧
        (∀ pre post v vs, entry.Attributes = pre ++ ⟨av.1, v :: vs⟩ :: post →
          (∀ x ∈ pre, x.Name ≠ av.1) → av.2 = v)) ∧
    ((∀ x ∈ entry.Attributes,
        x.Name ∈ [p.name, p.family_name, p.given_name, p.nickname, p.email, p.phone_number] →
        x.Values ≠ []) →
      ∃ prof, (p.Login h.withSpecGetAttr c username password).outcome = .ret prof none) := by
  rw [login_run_mapping h.withSpecGetAttr c p username password s0 s1 s2 s3 s4 first entry
    hconn hbind hsearch huser hfetch]
  constructor
  · intro prof err hret
    obtain ⟨herr, h1, h2, h3, h4, h5, h6⟩ :=
      buildProfile_ret h.withSpecGetAttr p entry.Attributes prof err hret
    refine ⟨herr, ?_⟩
    intro av hav
    simp only [List.mem_cons, List.mem_singleton, List.not_mem_nil, or_false] at hav
    rcases hav with rfl | rfl | rfl | rfl | rfl | rfl
    · exact getAttr_first_value _ _ _ h1
    · exact getAttr_first_value _ _ _ h2
    · exact getAttr_first_value _ _ _ h3
    · exact getAttr_first_value _ _ _ h4
    · exact getAttr_first_value _ _ _ h5
    · exact getAttr_first_value _ _ _ h6
  · intro hval
    have hne : ∀ a ∈ [p.name, p.family_name, p.given_name, p.nickname, p.email,
        p.phone_number], h.withSpecGetAttr.getAttr entry.Attributes a ≠ [] := by
      intro a ha
      exact getAttr_ne_nil entry.Attributes a (fun x hx hxa => hval x hx (hxa ▸ ha))
    exact buildProfile_ok h.withSpecGetAttr p entry.Attributes
      (hne _ (by simp)) (hne _ (by simp)) (hne _ (by simp)) (hne _ (by simp))
      (hne _ (by simp)) (hne _ (by simp))

/-- Witness of C5: Alice in the scenario directory. The fetched entry has `cn` and
`mail` and no attribute named by the four unconfigured (empty) attribute names. -/
theorem login_profile_fields_witness :
    ∃ prof, ((scenarioPlugin (none : Option String)).Login
        (scenarioHelpers id).withSpecGetAttr scenarioConn
        "alice@example.com" "correct-pw").outcome = .ret prof none ∧
      prof.Name = "Alice" ∧ prof.Email = "alice@example.com" ∧ prof.FamilyName = "" ∧
      prof.GivenName = "" ∧ prof.NickName = "" ∧ prof.PhoneNumber = "" := by
  have hthm := login_profile_fields (scenarioHelpers id) scenarioConn (scenarioPlugin none)
    "alice@example.com" "correct-pw" none (some "cn=svc,dc=example,dc=com")
    (some "cn=svc,dc=example,dc=com") (some "cn=Alice,dc=example,dc=com")
    (some "cn=Alice,dc=example,dc=com") (aliceEntry.select ["dn"])
    (aliceEntry.select ["cn", "", "", "", "mail", ""]) rfl (by decide) rfl (by decide) rfl
  obtain ⟨prof, hprof⟩ := hthm.2 (by decide)
  obtain ⟨_, hfields⟩ := hthm.1 prof none hprof
  have hlack : ∀ x ∈ (aliceEntry.select ["cn", "", "", "", "mail", ""]).Attributes,
      x.Name ≠ "" := by decide
  refine ⟨prof, hprof, ?_, ?_, ?_, ?_, ?_, ?_⟩
  · exact (hfields ("cn", prof.Name) (by simp [scenarioPlugin])).2 [] [⟨"mail", ["alice@example.com"]⟩]
      "Alice" [] rfl (by simp)
  · exact (hfields ("mail", prof.Email) (by simp [scenarioPlugin])).2 [⟨"cn", ["Alice"]⟩] []
      "alice@example.com" [] rfl
      (show ∀ x ∈ [(⟨"cn", ["Alice"]⟩ : EntryAttribute)], x.Name ≠ "mail" by decide)
  · exact (hfields ("", prof.FamilyName) (by simp [scenarioPlugin])).1 hlack
  · exact (hfields ("", prof.GivenName) (by simp [scenarioPlugin])).1 hlack
  · exact (hfields ("", prof.NickName) (by simp [scenarioPlugin])).1 hlack
  · exact (hfields ("", prof.PhoneNumber) (by simp [scenarioPlugin])).1 hlack

/-- C7 (the code departs from the claim). In the scenario the configured groups
attribute is `memberOf`; the run for Alice reaches the attribute fetch, and the request
of that search asks for the six scalar attribute names only: `memberOf` is in the
attribute list of no search `Login` issues. -/
theorem login_fetch_request_omits_groups :
    (NewPlugin reachableNet scenarioCfgVerify).plugin.groups = "memberOf" ∧
    ((NewPlugin reachableNet scenarioCfgVerify).plugin.Login (scenarioHelpers id)
        scenarioConn "alice@example.com" "correct-pw").trace =
      [.bind "cn=svc,dc=example,dc=com" "p",
       .search
         { BaseDN := "dc=example,dc=com", Scope := ScopeWholeSubtree,
           DerefAliases := NeverDerefAliases, SizeLimit := 0, TimeLimit := 0,
           TypesOnly := false,
           Filter := "(&(objectClass=person)(mail=alice@example.com))",
           Attributes := ["dn"] },
       .bind "cn=Alice,dc=example,dc=com" "correct-pw",
       .search
         { BaseDN := "cn=Alice,dc=example,dc=com", Scope := ScopeBaseObject,
           DerefAliases := NeverDerefAliases, SizeLimit := 0, TimeLimit := 0,
           TypesOnly := false, Filter := "(objectClass=*)",
           Attributes := ["cn", "", "", "", "mail", ""] }] ∧
    (∀ req, Op.search req ∈
        ((NewPlugin reachableNet scenarioCfgVerify).plugin.Login (scenarioHelpers id)
          scenarioConn "alice@example.com" "correct-pw").trace →
      "memberOf" ∉ req.Attributes) := by
  have htrace : ((NewPlugin reachableNet scenarioCfgVerify).plugin.Login (scenarioHelpers id)
        scenarioConn "alice@example.com" "correct-pw").trace =
      [.bind "cn=svc,dc=example,dc=com" "p",
       .search
         { BaseDN := "dc=example,dc=com", Scope := ScopeWholeSubtree,
           DerefAliases := NeverDerefAliases, SizeLimit := 0, TimeLimit := 0,
           TypesOnly := false,
           Filter := "(&(objectClass=person)(mail=alice@example.com))",
           Attributes := ["dn"] },
       .bind "cn=Alice,dc=example,dc=com" "correct-pw",
       .search
         { BaseDN := "cn=Alice,dc=example,dc=com", Scope := ScopeBaseObject,
           DerefAliases := NeverDerefAliases, SizeLimit := 0, TimeLimit := 0,
           TypesOnly := false, Filter := "(objectClass=*)",
           Attributes := ["cn", "", "", "", "mail", ""] }] := by decide
  refine ⟨rfl, htrace, ?_⟩
  intro req hreq
  rw [htrace] at hreq
  simp only [List.mem_cons, List.mem_singleton, List.not_mem_nil, or_false, Op.search.injEq,
    false_or, reduceCtorEq] at hreq
  rcases hreq with rfl | rfl <;> decide

/-- C10 (as amended). With the scenario configuration, a `skip_verify` value that parses
and a host that names the port (`dir.example.com:389`), against the reachable scenario
directory, `NewPlugin` succeeds after one plain `Dial` and no TLS call, and `Login` for
Alice with her password returns a nil error and a profile whose `Name` is `Alice`. The
helper `getAttr` is taken as the specification describes it; the constants and
`getGroups` are arbitrary. -/
theorem scenario_login_alice (h : Helpers) :
    (NewPlugin reachableNet scenarioCfgVerify).err = none ∧
    (NewPlugin reachableNet scenarioCfgVerify).trace = [.dial "tcp" "dir.example.com:389"] ∧
    ∃ prof, ((NewPlugin reachableNet scenarioCfgVerify).plugin.Login h.withSpecGetAttr
        scenarioConn "alice@example.com" "correct-pw").outcome = .ret prof none ∧
      prof.Name = "Alice" := by
  refine ⟨by decide, by decide, ?_⟩
  rw [login_run_mapping h.withSpecGetAttr scenarioConn
    (NewPlugin reachableNet scenarioCfgVerify).plugin
    "alice@example.com" "correct-pw" none (some "cn=svc,dc=example,dc=com")
    (some "cn=svc,dc=example,dc=com") (some "cn=Alice,dc=example,dc=com")
    (some "cn=Alice,dc=example,dc=com") (aliceEntry.select ["dn"])
    (aliceEntry.select ["cn", "", "", "", "mail", ""]) rfl (by decide) rfl (by decide) rfl]
  exact ⟨_, rfl, rfl⟩

end MappingTheorems

end XAuthLdap
